import Mathlib

/-!
Shallow embedding of `qutebrowser/widgets/_tabbedbrowser.py` (class
`TabbedBrowser`), the tab-collection manager of the repository.

State model:
* `tabs` is the Python attribute `self._tabs` (the internal list of open
  tabs; a tab stays in it until its asynchronous shutdown confirms).
* `widgets` is the page list of the underlying `QTabWidget` (the visible
  tab sequence): `self.count()`, `self.widget(i)`, `self.addTab`,
  `self.removeTab`, `self.currentIndex()` all act on it.
* `currentIndex` is the Qt current index (`-1` when the widget is empty).
* `urlStack` is `self._url_stack` (pushed at the end, popped from the end).
* `urls` records each tab's current location (`tab.url()` /
  `tab.openurl(u)`), as an association list whose most recent binding wins.
* `pending` records the outstanding asynchronous shutdown callbacks: a tab
  is added when `tab.shutdown(callback=partial(self._cb_tab_shutdown, tab))`
  is issued and removed when the engine later invokes the callback.
* `connected` records the tabs whose signals were wired through the signal
  filter by `_connect_tab_signals`.
* `replayConnected` models the `currentChanged` connection set up in
  `__init__` and disconnected at the start of `shutdown`.

Side effects are returned as an explicit event list: emitted Qt signals
(`shutdown_complete`, `quit`), `message.error` reports, `logging.exception`
anomaly logs, navigation requests (`tab.openurl`) and per-tab shutdown
requests (`tab.shutdown`).
-/

namespace TabbedBrowser

abbrev Tab := Nat

abbrev Url := String

/-- The two configuration values the file reads: `config.get('tabbar',
'last_close')` and `config.get('tabbar', 'wrap')`. -/
structure Config where
  lastClose : String
  wrap : Bool
deriving Repr, DecidableEq

/-- Observable side effects of the operations. -/
inductive Event where
  | shutdownComplete : Event
  | quitSig : Event
  | errorMsg : String → Event
  | logAnomaly : String → Event
  | openUrlReq : Tab → Url → Event
  | tabShutdownReq : Tab → Event
deriving Repr, DecidableEq

/-- The `TabbedBrowser` state. -/
structure Browser where
  tabs : List Tab
  widgets : List Tab
  currentIndex : Int
  urlStack : List Url
  urls : List (Tab × Url)
  pending : List Tab
  connected : List Tab
  nextId : Nat
  replayConnected : Bool
deriving Repr, DecidableEq

/-- `QTabWidget.count()`: the number of pages in the visible tab strip. -/
def Browser.tabCount (b : Browser) : Nat :=
  b.widgets.length

/-- `QTabWidget.currentWidget()`: the page at the current index, or none
when the widget is empty (current index `-1`). -/
def Browser.currentWidget (b : Browser) : Option Tab :=
  if 0 ≤ b.currentIndex then b.widgets[b.currentIndex.toNat]? else none

/-- `QTabWidget.setCurrentIndex(i)`: a no-op when `i` is out of range. -/
def Browser.setCurrentIndex (b : Browser) (i : Int) : Browser :=
  if 0 ≤ i ∧ i < (b.widgets.length : Int) then { b with currentIndex := i } else b

/-- Index of a tab in a page list (Qt's `indexOf`). -/
def idxOfTab : List Tab → Tab → Option Nat
  | [], _ => none
  | x :: xs, t => if x = t then some 0 else (idxOfTab xs t).map (· + 1)

/-- `QTabWidget.setCurrentWidget(tab)`: makes the page holding `tab`
current; a no-op when `tab` is not a page. -/
def Browser.setCurrentWidget (b : Browser) (t : Tab) : Browser :=
  match idxOfTab b.widgets t with
  | some i => { b with currentIndex := (i : Int) }
  | none => b

/-- `QTabWidget.addTab(tab, title)`: appends a page at the end. -/
def Browser.addTab (b : Browser) (t : Tab) : Browser :=
  { b with widgets := b.widgets ++ [t] }

/-- `QTabWidget.removeTab(i)`: removes the page at index `i` (a no-op when
out of range); the current index shifts down when a page before it goes
away, and moves to a neighbour when the current page itself goes away. -/
def Browser.removeTabAt (b : Browser) (i : Int) : Browser :=
  if 0 ≤ i ∧ i < (b.widgets.length : Int) then
    let ws := b.widgets.eraseIdx i.toNat
    let cur :=
      if i < b.currentIndex then b.currentIndex - 1
      else if b.currentIndex = i then min i ((ws.length : Int) - 1)
      else b.currentIndex
    { b with widgets := ws, currentIndex := cur }
  else b

/-- `tab.url()`: the tab's current location. -/
def Browser.urlOf (b : Browser) (t : Tab) : Url :=
  (b.urls.lookup t).getD ""

/-- `tab.openurl(u)`: begin navigation; the tab's location becomes `u` and
a navigation request is issued. -/
def Browser.openurl (b : Browser) (t : Tab) (u : Url) : Browser × List Event :=
  ({ b with urls := (t, u) :: b.urls }, [Event.openUrlReq t u])

/-- `TabbedBrowser._cb_tab_shutdown(tab)`: remove `tab` from `self._tabs`
(a failing `list.remove` is caught and logged); when `self._tabs` is then
empty, emit `shutdown_complete`. -/
def cb_tab_shutdown (b : Browser) (t : Tab) : Browser × List Event :=
  let removed :=
    if t ∈ b.tabs then (b.tabs.erase t, ([] : List Event))
    else (b.tabs, [Event.logAnomaly "tab could not be removed"])
  let b' := { b with tabs := removed.1 }
  if removed.1.isEmpty then (b', removed.2 ++ [Event.shutdownComplete])
  else (b', removed.2)

/-- Delivery of one asynchronous shutdown confirmation: the engine invokes
the stored callback `partial(self._cb_tab_shutdown, tab)`, consuming the
outstanding request for `tab`. -/
def deliverConfirm (b : Browser) (t : Tab) : Browser × List Event :=
  cb_tab_shutdown { b with pending := b.pending.erase t } t

/-- A sequence of confirmation deliveries, in the given arrival order. -/
def runDeliveries : Browser → List Tab → Browser × List Event
  | b, [] => (b, [])
  | b, t :: rest =>
    let s := deliverConfirm b t
    let s' := runDeliveries s.1 rest
    (s'.1, s.2 ++ s'.2)

/-- `TabbedBrowser.shutdown()`: disconnect the `currentChanged` replay
wiring; with zero visible tabs emit `shutdown_complete` at once, otherwise
issue an asynchronous shutdown request to every visible tab. -/
def shutdown (b : Browser) : Browser × List Event :=
  let b0 := { b with replayConnected := false }
  if b0.tabCount = 0 then (b0, [Event.shutdownComplete])
  else
    ({ b0 with pending := b0.pending ++ b0.widgets },
     b0.widgets.map Event.tabShutdownReq)

/-- `TabbedBrowser.cntwidget(count)`: the current page when `count` is
none, the page with 1-based index `count` when in range, none otherwise. -/
def cntwidget (b : Browser) (count : Option Int) : Option Tab :=
  match count with
  | none => b.currentWidget
  | some c =>
    if 1 ≤ c ∧ c ≤ (b.tabCount : Int) then b.widgets[(c - 1).toNat]? else none

/-- The index `tabclose` resolves: `self.currentIndex() if count is None
else count - 1`. -/
def resolvedIdx (b : Browser) (count : Option Int) : Int :=
  match count with
  | none => b.currentIndex
  | some c => c - 1

/-- `TabbedBrowser.tabclose(count)`: close the current/`count`-th tab.
With more than one visible tab: push the tab's location on the URL stack,
remove the page, and request the tab's asynchronous shutdown. With a
single visible tab the configured `last_close` policy applies: `quit`
emits the quit signal, `blank` navigates the tab to `about:blank`. -/
def tabclose (b : Browser) (cfg : Config) (count : Option Int) :
    Browser × List Event :=
  let idx := resolvedIdx b count
  match cntwidget b count with
  | none => (b, [])
  | some tab =>
    if 1 < b.tabCount then
      let b1 := { b with urlStack := b.urlStack ++ [b.urlOf tab] }
      let b2 := b1.removeTabAt idx
      ({ b2 with pending := b2.pending ++ [tab] }, [Event.tabShutdownReq tab])
    else if cfg.lastClose = "quit" then (b, [Event.quitSig])
    else if cfg.lastClose = "blank" then b.openurl tab "about:blank"
    else (b, [])

/-- `TabbedBrowser.tabopen(url, background)`: create a tab, wire its
signals, append it to `self._tabs` and the tab widget, begin navigation,
and make it current unless `background` is set. The Python function has no
`return` statement, so its value (the last component) is `None`. -/
def tabopen (b : Browser) (url : Url) (background : Bool) :
    (Browser × List Event) × Option Tab :=
  let tab := b.nextId
  let b1 := { b with
    nextId := b.nextId + 1
    connected := b.connected ++ [tab]
    tabs := b.tabs ++ [tab] }
  let b2 := b1.addTab tab
  let s := b2.openurl tab url
  let b3 := if background then s.1 else s.1.setCurrentWidget tab
  ((b3, s.2), none)

/-- `TabbedBrowser.undo_close()`: pop the most recent closed-tab location
and reopen it in the foreground; report an error when the stack is
empty. -/
def undo_close (b : Browser) : Browser × List Event :=
  match b.urlStack.getLast? with
  | some u => (tabopen { b with urlStack := b.urlStack.dropLast } u false).1
  | none => (b, [Event.errorMsg "Nothing to undo!"])

/-- `TabbedBrowser.switch_prev(count)`: retreat the current index by
`count`; on underflow either wrap modulo the tab count (`none` models the
uncaught `ZeroDivisionError` when the widget is empty) or report "First
tab". -/
def switch_prev (b : Browser) (cfg : Config) (count : Int) :
    Option (Browser × List Event) :=
  let newidx := b.currentIndex - count
  if 0 ≤ newidx then some (b.setCurrentIndex newidx, [])
  else if cfg.wrap then
    if b.tabCount = 0 then none
    else some (b.setCurrentIndex (newidx % (b.tabCount : Int)), [])
  else some (b, [Event.errorMsg "First tab"])

/-- `TabbedBrowser.switch_next(count)`: advance the current index by
`count`; on overflow either wrap modulo the tab count (`none` models the
uncaught `ZeroDivisionError` when the widget is empty) or report "Last
tab". -/
def switch_next (b : Browser) (cfg : Config) (count : Int) :
    Option (Browser × List Event) :=
  let newidx := b.currentIndex + count
  if newidx < (b.tabCount : Int) then some (b.setCurrentIndex newidx, [])
  else if cfg.wrap then
    if b.tabCount = 0 then none
    else some (b.setCurrentIndex (newidx % (b.tabCount : Int)), [])
  else some (b, [Event.errorMsg "Last tab"])

/-- Number of `shutdown_complete` emissions in an event trace. -/
def countSC : List Event → Nat
  | [] => 0
  | e :: r => (if e = Event.shutdownComplete then 1 else 0) + countSC r

/-- The freshly constructed browser of `__init__`: no tabs, empty URL
stack, current index `-1`, replay wiring connected. -/
def emptyBrowser : Browser :=
  { tabs := [], widgets := [], currentIndex := -1, urlStack := [],
    urls := [], pending := [], connected := [], nextId := 0,
    replayConnected := true }

/-- A sample populated browser used to instantiate the theorems: three
tabs `0, 1, 2` showing locations `"a"`, `"b"`, `"c"`, tab `0` active. -/
def sampleBrowser : Browser :=
  { tabs := [0, 1, 2], widgets := [0, 1, 2], currentIndex := 0,
    urlStack := [], urls := [(0, "a"), (1, "b"), (2, "c")], pending := [],
    connected := [0, 1, 2], nextId := 3, replayConnected := true }

/-- A sample configuration: last-close policy `blank`, wrap enabled. -/
def sampleConfig : Config :=
  { lastClose := "blank", wrap := true }

lemma getElem?_lt_length {l : List Tab} {i : Nat} {a : Tab}
    (h : l[i]? = some a) : i < l.length := by
  rcases List.getElem?_eq_some.mp h with ⟨hlt, _⟩
  exact hlt

lemma mem_of_getElem?_some {l : List Tab} {i : Nat} {a : Tab}
    (h : l[i]? = some a) : a ∈ l := by
  rcases List.getElem?_eq_some.mp h with ⟨hlt, hv⟩
  exact hv ▸ List.getElem_mem hlt

lemma not_mem_eraseIdx_of_getElem? {l : List Tab} {i : Nat} {a : Tab}
    (hnd : l.Nodup) (h : l[i]? = some a) : a ∉ l.eraseIdx i := by
  induction l generalizing i with
  | nil => simp at h
  | cons x xs ih =>
    cases i with
    | zero =>
      simp at h
      subst h
      simpa using (List.nodup_cons.mp hnd).1
    | succ n =>
      simp at h
      have hmem : a ∈ xs := mem_of_getElem?_some h
      have hax : a ≠ x := by
        intro e
        exact (List.nodup_cons.mp hnd).1 (e ▸ hmem)
      rw [List.eraseIdx_cons_succ]
      simp only [List.mem_cons, not_or]
      exact ⟨hax, ih (List.nodup_cons.mp hnd).2 h⟩

/-- C7: requesting shutdown with zero open tabs emits `shutdown_complete`
synchronously within the call, exactly once, and fans out no per-tab
shutdown request. -/
theorem shutdown_zero_tabs_completes (b : Browser) (h : b.widgets = []) :
    (shutdown b).2 = [Event.shutdownComplete] ∧
    ∀ t : Tab, Event.tabShutdownReq t ∉ (shutdown b).2 := by
  constructor
  · simp [shutdown, Browser.tabCount, h]
  · intro t
    simp [shutdown, Browser.tabCount, h]

/-- Witness for C7 at the freshly constructed browser. -/
theorem shutdown_zero_tabs_completes_witness :
    (shutdown emptyBrowser).2 = [Event.shutdownComplete] ∧
    ∀ t : Tab, Event.tabShutdownReq t ∉ (shutdown emptyBrowser).2 :=
  shutdown_zero_tabs_completes emptyBrowser rfl

/-- C2 counterexample: starting from a browser with no tabs, the first
`shutdown` call completes (emits `shutdown_complete`); invoking `shutdown`
again is not a no-op — it emits `shutdown_complete` a second time. -/
theorem shutdown_reentry_cex :
    (shutdown emptyBrowser).2 = [Event.shutdownComplete] ∧
    (shutdown (shutdown emptyBrowser).1).2 = [Event.shutdownComplete] := by
  constructor <;> rfl

/-- C2 amended: the code has no `Idle`/`Draining`/`Complete` guard, so
re-invoking `shutdown` after a completed shutdown (all tabs confirmed, no
visible tab left) synchronously emits `shutdown_complete` once more on
every call, instead of being a no-op. -/
theorem shutdown_reentry_emits_again (b : Browser) (h : b.widgets = []) :
    (shutdown (shutdown b).1).2 = [Event.shutdownComplete] := by
  simp [shutdown, Browser.tabCount, h]

/-- Witness for the amended C2. -/
theorem shutdown_reentry_emits_again_witness :
    (shutdown (shutdown emptyBrowser).1).2 = [Event.shutdownComplete] :=
  shutdown_reentry_emits_again emptyBrowser rfl

/-- C9: a shutdown confirmation for a tab no longer present in
`self._tabs` is tolerated: the state is left entirely unchanged (in
particular the tab list used as the pending count is not decremented
again) and the failure is only logged as an anomaly. -/
theorem cb_unknown_tab_tolerated (b : Browser) (t : Tab) (h : t ∉ b.tabs) :
    (cb_tab_shutdown b t).1 = b ∧
    Event.logAnomaly "tab could not be removed" ∈ (cb_tab_shutdown b t).2 := by
  simp only [cb_tab_shutdown, if_neg h]
  by_cases he : b.tabs.isEmpty <;> simp [he]

/-- Witness for C9: a confirmation for the absent tab `7`. -/
theorem cb_unknown_tab_tolerated_witness :
    (cb_tab_shutdown sampleBrowser 7).1 = sampleBrowser ∧
    Event.logAnomaly "tab could not be removed" ∈
      (cb_tab_shutdown sampleBrowser 7).2 :=
  cb_unknown_tab_tolerated sampleBrowser 7 (by decide)

/-- C10: an index-based close request whose 1-based index is outside
`[1, tabCount]` resolves no widget and is a silent no-op: the state is
returned unchanged and no event of any kind is produced. -/
theorem tabclose_out_of_range_noop (b : Browser) (cfg : Config) (c : Int)
    (h : c < 1 ∨ (b.tabCount : Int) < c) :
    cntwidget b (some c) = none ∧ tabclose b cfg (some c) = (b, []) := by
  have hno : ¬ (1 ≤ c ∧ c ≤ (b.tabCount : Int)) := by omega
  have hcnt : cntwidget b (some c) = none := by
    simp only [cntwidget, if_neg hno]
  exact ⟨hcnt, by simp only [tabclose, hcnt]⟩

/-- Witness for C10: closing tab `5` of a 3-tab browser. -/
theorem tabclose_out_of_range_noop_witness :
    cntwidget sampleBrowser (some 5) = none ∧
    tabclose sampleBrowser sampleConfig (some 5) = (sampleBrowser, []) :=
  tabclose_out_of_range_noop sampleBrowser sampleConfig 5 (by decide)

/-- C6: with an empty collection (tab count `0`, current index `-1`) and
wrap enabled, `switch_next` and `switch_prev` reach the wrap branch and
evaluate `newidx % 0`; the operations are not total (`none` models the
uncaught `ZeroDivisionError`). -/
theorem switch_empty_wrap_divzero (b : Browser) (cfg : Config) (count : Int)
    (hw : b.widgets = []) (hcur : b.currentIndex = -1)
    (hwrap : cfg.wrap = true) (hcount : 1 ≤ count) :
    switch_next b cfg count = none ∧ switch_prev b cfg count = none := by
  have hTC : b.tabCount = 0 := by simp [Browser.tabCount, hw]
  constructor
  · unfold switch_next
    rw [hcur, hTC, hwrap]
    have h1 : ¬ ((-1 : Int) + count < ((0 : Nat) : Int)) := by omega
    simp [h1, hcount]
  · unfold switch_prev
    rw [hcur, hTC, hwrap]
    have h1 : ¬ (0 ≤ (-1 : Int) - count) := by omega
    simp [h1]

/-- Witness for C6 at the empty browser with wrap enabled. -/
theorem switch_empty_wrap_divzero_witness :
    switch_next emptyBrowser sampleConfig 1 = none ∧
    switch_prev emptyBrowser sampleConfig 1 = none :=
  switch_empty_wrap_divzero emptyBrowser sampleConfig 1 rfl rfl rfl (by decide)

lemma setCurrentIndex_of_valid (b : Browser) (i : Int) (h0 : 0 ≤ i)
    (hlt : i < (b.widgets.length : Int)) :
    b.setCurrentIndex i = { b with currentIndex := i } := by
  unfold Browser.setCurrentIndex
  rw [if_pos ⟨h0, hlt⟩]

/-- C4: with a valid active index and `count ≥ 1`, `switch_next` and
`switch_prev` move the active index by `count` when the target is in
range; when the target leaves the range they wrap to `(current ± count)
mod tabCount` with wrap enabled, and with wrap disabled they report the
"Last tab" / "First tab" boundary error and leave the state unchanged. -/
theorem switch_next_prev_spec (b : Browser) (cfg : Config) (count : Int)
    (hcur0 : 0 ≤ b.currentIndex)
    (hcurlt : b.currentIndex < (b.tabCount : Int))
    (hcount : 1 ≤ count) :
    (b.currentIndex + count < (b.tabCount : Int) →
      switch_next b cfg count =
        some ({ b with currentIndex := b.currentIndex + count }, [])) ∧
    ((b.tabCount : Int) ≤ b.currentIndex + count → cfg.wrap = true →
      switch_next b cfg count =
        some ({ b with
          currentIndex := (b.currentIndex + count) % (b.tabCount : Int) }, [])) ∧
    ((b.tabCount : Int) ≤ b.currentIndex + count → cfg.wrap = false →
      switch_next b cfg count = some (b, [Event.errorMsg "Last tab"])) ∧
    (0 ≤ b.currentIndex - count →
      switch_prev b cfg count =
        some ({ b with currentIndex := b.currentIndex - count }, [])) ∧
    (b.currentIndex - count < 0 → cfg.wrap = true →
      switch_prev b cfg count =
        some ({ b with
          currentIndex := (b.currentIndex - count) % (b.tabCount : Int) }, [])) ∧
    (b.currentIndex - count < 0 → cfg.wrap = false →
      switch_prev b cfg count = some (b, [Event.errorMsg "First tab"])) := by
  have hlen : 0 < (b.tabCount : Int) := by omega
  have hne0 : ¬ (b.tabCount = 0) := by omega
  have hTC : (b.tabCount : Int) = (b.widgets.length : Int) := rfl
  refine ⟨?_, ?_, ?_, ?_, ?_, ?_⟩
  · intro hin
    simp only [switch_next]
    rw [if_pos hin, setCurrentIndex_of_valid _ _ (by omega) (by omega)]
  · intro hout hwrap
    simp only [switch_next]
    rw [if_neg (by omega), hwrap, if_pos rfl, if_neg hne0,
      setCurrentIndex_of_valid _ _ (Int.emod_nonneg _ (by omega))
        (by rw [← hTC]; exact Int.emod_lt_of_pos _ hlen)]
  · intro hout hwrap
    simp only [switch_next]
    rw [if_neg (by omega), hwrap]
    simp
  · intro hin
    simp only [switch_prev]
    rw [if_pos hin, setCurrentIndex_of_valid _ _ (by omega) (by omega)]
  · intro hout hwrap
    simp only [switch_prev]
    rw [if_neg (by omega), hwrap, if_pos rfl, if_neg hne0,
      setCurrentIndex_of_valid _ _ (Int.emod_nonneg _ (by omega))
        (by rw [← hTC]; exact Int.emod_lt_of_pos _ hlen)]
  · intro hout hwrap
    simp only [switch_prev]
    rw [if_neg (by omega), hwrap]
    simp

/-- Witness for C4 on the three-tab browser with `count = 5`. -/
theorem switch_next_prev_spec_witness :
    (sampleBrowser.currentIndex + 5 < (sampleBrowser.tabCount : Int) →
      switch_next sampleBrowser sampleConfig 5 =
        some ({ sampleBrowser with
          currentIndex := sampleBrowser.currentIndex + 5 }, [])) ∧
    ((sampleBrowser.tabCount : Int) ≤ sampleBrowser.currentIndex + 5 →
      sampleConfig.wrap = true →
      switch_next sampleBrowser sampleConfig 5 =
        some ({ sampleBrowser with
          currentIndex :=
            (sampleBrowser.currentIndex + 5) % (sampleBrowser.tabCount : Int) },
          [])) ∧
    ((sampleBrowser.tabCount : Int) ≤ sampleBrowser.currentIndex + 5 →
      sampleConfig.wrap = false →
      switch_next sampleBrowser sampleConfig 5 =
        some (sampleBrowser, [Event.errorMsg "Last tab"])) ∧
    (0 ≤ sampleBrowser.currentIndex - 5 →
      switch_prev sampleBrowser sampleConfig 5 =
        some ({ sampleBrowser with
          currentIndex := sampleBrowser.currentIndex - 5 }, [])) ∧
    (sampleBrowser.currentIndex - 5 < 0 → sampleConfig.wrap = true →
      switch_prev sampleBrowser sampleConfig 5 =
        some ({ sampleBrowser with
          currentIndex :=
            (sampleBrowser.currentIndex - 5) % (sampleBrowser.tabCount : Int) },
          [])) ∧
    (sampleBrowser.currentIndex - 5 < 0 → sampleConfig.wrap = false →
      switch_prev sampleBrowser sampleConfig 5 =
        some (sampleBrowser, [Event.errorMsg "First tab"])) :=
  switch_next_prev_spec sampleBrowser sampleConfig 5 (by decide) (by decide)
    (by decide)

lemma idxOfTab_append_self (l : List Tab) (t : Tab) (h : t ∉ l) :
    idxOfTab (l ++ [t]) t = some l.length := by
  induction l with
  | nil => simp [idxOfTab]
  | cons x xs ih =>
    have hx : x ≠ t := fun e => h (e ▸ List.mem_cons_self x xs)
    have hxs : t ∉ xs := fun hm => h (List.mem_cons_of_mem _ hm)
    simp [idxOfTab, hx, ih hxs]

lemma tabopen_fg_state (b : Browser) (u : Url)
    (hfresh : ∀ t ∈ b.widgets, t < b.nextId) :
    (tabopen b u false).1 =
      ({ b with nextId := b.nextId + 1,
                connected := b.connected ++ [b.nextId],
                tabs := b.tabs ++ [b.nextId],
                widgets := b.widgets ++ [b.nextId],
                urls := (b.nextId, u) :: b.urls,
                currentIndex := (b.widgets.length : Int) },
       [Event.openUrlReq b.nextId u]) := by
  have hnm : b.nextId ∉ b.widgets := fun hm => absurd (hfresh _ hm) (lt_irrefl _)
  simp [tabopen, Browser.addTab, Browser.openurl, Browser.setCurrentWidget,
    idxOfTab_append_self _ _ hnm]

lemma tabopen_bg_currentIndex (b : Browser) (u : Url) :
    (tabopen b u true).1.1.currentIndex = b.currentIndex := rfl

/-- C8 counterexample: opening a location in the foreground produces no
return value — the Python `tabopen` has no `return` statement, so the
caller receives `None`, not the new tab's identity. -/
theorem tabopen_no_return_cex :
    (tabopen emptyBrowser "about:blank" false).2 = none := rfl

/-- C8 amended: `tabopen(url, background=false)` creates a tab, appends it
at the end of both the internal list and the visible sequence, wires its
signals, begins navigation to the location, and makes it the active tab
(with `background=true` the active index is unchanged) — but it returns
`None`; the new tab's identity is not handed back to the caller. -/
theorem tabopen_foreground_spec (b : Browser) (u : Url)
    (hfresh : ∀ t ∈ b.widgets, t < b.nextId) :
    (tabopen b u false).1.1.widgets = b.widgets ++ [b.nextId] ∧
    (tabopen b u false).1.1.tabs = b.tabs ++ [b.nextId] ∧
    b.nextId ∈ (tabopen b u false).1.1.connected ∧
    (tabopen b u false).1.2 = [Event.openUrlReq b.nextId u] ∧
    (tabopen b u false).1.1.urlOf b.nextId = u ∧
    (tabopen b u false).1.1.currentIndex = (b.widgets.length : Int) ∧
    (tabopen b u true).1.1.currentIndex = b.currentIndex ∧
    (tabopen b u false).2 = none := by
  have hst := tabopen_fg_state b u hfresh
  refine ⟨?_, ?_, ?_, ?_, ?_, ?_, rfl, rfl⟩ <;> rw [hst] <;>
    simp [Browser.urlOf, List.lookup]

/-- Witness for the amended C8: opening `"d"` on the three-tab browser. -/
theorem tabopen_foreground_spec_witness :
    (tabopen sampleBrowser "d" false).1.1.widgets =
      sampleBrowser.widgets ++ [sampleBrowser.nextId] ∧
    (tabopen sampleBrowser "d" false).1.1.tabs =
      sampleBrowser.tabs ++ [sampleBrowser.nextId] ∧
    sampleBrowser.nextId ∈ (tabopen sampleBrowser "d" false).1.1.connected ∧
    (tabopen sampleBrowser "d" false).1.2 =
      [Event.openUrlReq sampleBrowser.nextId "d"] ∧
    (tabopen sampleBrowser "d" false).1.1.urlOf sampleBrowser.nextId = "d" ∧
    (tabopen sampleBrowser "d" false).1.1.currentIndex =
      (sampleBrowser.widgets.length : Int) ∧
    (tabopen sampleBrowser "d" true).1.1.currentIndex =
      sampleBrowser.currentIndex ∧
    (tabopen sampleBrowser "d" false).2 = none :=
  tabopen_foreground_spec sampleBrowser "d" (by decide)

lemma cntwidget_resolved (b : Browser) (count : Option Int) (tab : Tab)
    (h : cntwidget b count = some tab) :
    0 ≤ resolvedIdx b count ∧
    resolvedIdx b count < (b.widgets.length : Int) ∧
    b.widgets[(resolvedIdx b count).toNat]? = some tab := by
  cases count with
  | none =>
    simp only [cntwidget, Browser.currentWidget] at h
    simp only [resolvedIdx]
    by_cases h0 : 0 ≤ b.currentIndex
    · rw [if_pos h0] at h
      have hlt := getElem?_lt_length h
      exact ⟨h0, by omega, h⟩
    · rw [if_neg h0] at h
      cases h
  | some c =>
    simp only [cntwidget] at h
    simp only [resolvedIdx]
    by_cases hc : 1 ≤ c ∧ c ≤ (b.tabCount : Int)
    · rw [if_pos hc] at h
      have hlt := getElem?_lt_length h
      have hTC : b.tabCount = b.widgets.length := rfl
      exact ⟨by omega, by omega, h⟩
    · rw [if_neg hc] at h
      cases h

lemma removeTabAt_tabs (b : Browser) (i : Int) :
    (b.removeTabAt i).tabs = b.tabs := by
  unfold Browser.removeTabAt
  split <;> rfl

lemma removeTabAt_urlStack (b : Browser) (i : Int) :
    (b.removeTabAt i).urlStack = b.urlStack := by
  unfold Browser.removeTabAt
  split <;> rfl

lemma removeTabAt_urls (b : Browser) (i : Int) :
    (b.removeTabAt i).urls = b.urls := by
  unfold Browser.removeTabAt
  split <;> rfl

lemma removeTabAt_pending (b : Browser) (i : Int) :
    (b.removeTabAt i).pending = b.pending := by
  unfold Browser.removeTabAt
  split <;> rfl

lemma removeTabAt_nextId (b : Browser) (i : Int) :
    (b.removeTabAt i).nextId = b.nextId := by
  unfold Browser.removeTabAt
  split <;> rfl

lemma removeTabAt_widgets_valid (b : Browser) (i : Int) (h0 : 0 ≤ i)
    (hlt : i < (b.widgets.length : Int)) :
    (b.removeTabAt i).widgets = b.widgets.eraseIdx i.toNat := by
  unfold Browser.removeTabAt
  rw [if_pos ⟨h0, hlt⟩]

lemma tabclose_gt (b : Browser) (cfg : Config) (count : Option Int) (tab : Tab)
    (ht : cntwidget b count = some tab) (hgt : 1 < b.tabCount) :
    (tabclose b cfg count).1.urlStack = b.urlStack ++ [b.urlOf tab] ∧
    (tabclose b cfg count).1.urls = b.urls ∧
    (tabclose b cfg count).1.nextId = b.nextId ∧
    (tabclose b cfg count).1.widgets =
      b.widgets.eraseIdx (resolvedIdx b count).toNat ∧
    (tabclose b cfg count).1.pending = b.pending ++ [tab] ∧
    (tabclose b cfg count).1.tabs = b.tabs ∧
    (tabclose b cfg count).2 = [Event.tabShutdownReq tab] := by
  obtain ⟨h0, hlt, hget⟩ := cntwidget_resolved b count tab ht
  simp only [tabclose, ht, if_pos hgt]
  refine ⟨?_, ?_, ?_, ?_, ?_, ?_, trivial⟩
  · exact removeTabAt_urlStack _ _
  · exact removeTabAt_urls _ _
  · exact removeTabAt_nextId _ _
  · exact removeTabAt_widgets_valid _ _ h0 hlt
  · rw [removeTabAt_pending]
  · exact removeTabAt_tabs _ _

/-- C3: when a close request resolves to a tab: with more than one visible
tab the tab's location is pushed on the undo stack, the page at the
resolved index is removed from the visible sequence (the tab itself is
gone from it), and its asynchronous shutdown is requested; with a single
tab left, policy `quit` emits exactly one quit signal and removes nothing,
and policy `blank` navigates the tab to `about:blank` keeping the visible
sequence (and hence the count of 1) and the undo stack unchanged. -/
theorem tabclose_branches (b : Browser) (cfg : Config) (count : Option Int)
    (tab : Tab) (ht : cntwidget b count = some tab) (hnd : b.widgets.Nodup) :
    (1 < b.tabCount →
      (tabclose b cfg count).1.urlStack = b.urlStack ++ [b.urlOf tab] ∧
      (tabclose b cfg count).1.widgets =
        b.widgets.eraseIdx (resolvedIdx b count).toNat ∧
      tab ∉ (tabclose b cfg count).1.widgets ∧
      (tabclose b cfg count).1.pending = b.pending ++ [tab] ∧
      (tabclose b cfg count).2 = [Event.tabShutdownReq tab]) ∧
    (b.tabCount = 1 → cfg.lastClose = "quit" →
      tabclose b cfg count = (b, [Event.quitSig])) ∧
    (b.tabCount = 1 → cfg.lastClose = "blank" →
      (tabclose b cfg count).1.urlOf tab = "about:blank" ∧
      (tabclose b cfg count).1.widgets = b.widgets ∧
      (tabclose b cfg count).1.urlStack = b.urlStack ∧
      (tabclose b cfg count).2 = [Event.openUrlReq tab "about:blank"]) := by
  obtain ⟨h0, hlt, hget⟩ := cntwidget_resolved b count tab ht
  refine ⟨fun hgt => ?_, fun h1 hq => ?_, fun h1 hb => ?_⟩
  · obtain ⟨hu, _, _, hw, hp, _, he⟩ := tabclose_gt b cfg count tab ht hgt
    refine ⟨hu, hw, ?_, hp, he⟩
    rw [hw]
    exact not_mem_eraseIdx_of_getElem? hnd hget
  · simp only [tabclose, ht, if_neg (by omega : ¬ 1 < b.tabCount), hq]
    simp
  · simp only [tabclose, ht, if_neg (by omega : ¬ 1 < b.tabCount), hb]
    simp [Browser.openurl, Browser.urlOf, List.lookup]

/-- Witness for C3: closing the second of three tabs. -/
theorem tabclose_branches_witness :
    (1 < sampleBrowser.tabCount →
      (tabclose sampleBrowser sampleConfig (some 2)).1.urlStack =
        sampleBrowser.urlStack ++ [sampleBrowser.urlOf 1] ∧
      (tabclose sampleBrowser sampleConfig (some 2)).1.widgets =
        sampleBrowser.widgets.eraseIdx
          (resolvedIdx sampleBrowser (some 2)).toNat ∧
      1 ∉ (tabclose sampleBrowser sampleConfig (some 2)).1.widgets ∧
      (tabclose sampleBrowser sampleConfig (some 2)).1.pending =
        sampleBrowser.pending ++ [1] ∧
      (tabclose sampleBrowser sampleConfig (some 2)).2 =
        [Event.tabShutdownReq 1]) ∧
    (sampleBrowser.tabCount = 1 → sampleConfig.lastClose = "quit" →
      tabclose sampleBrowser sampleConfig (some 2) =
        (sampleBrowser, [Event.quitSig])) ∧
    (sampleBrowser.tabCount = 1 → sampleConfig.lastClose = "blank" →
      (tabclose sampleBrowser sampleConfig (some 2)).1.urlOf 1 =
        "about:blank" ∧
      (tabclose sampleBrowser sampleConfig (some 2)).1.widgets =
        sampleBrowser.widgets ∧
      (tabclose sampleBrowser sampleConfig (some 2)).1.urlStack =
        sampleBrowser.urlStack ∧
      (tabclose sampleBrowser sampleConfig (some 2)).2 =
        [Event.openUrlReq 1 "about:blank"]) :=
  tabclose_branches sampleBrowser sampleConfig (some 2) 1 (by decide)
    (by decide)

lemma urlOf_congr {a b : Browser} (h : a.urls = b.urls) (t : Tab) :
    a.urlOf t = b.urlOf t := by
  unfold Browser.urlOf
  rw [h]

lemma tabclose_fresh (b : Browser) (cfg : Config) (count : Option Int)
    (tab : Tab) (ht : cntwidget b count = some tab) (hgt : 1 < b.tabCount)
    (hfresh : ∀ t ∈ b.widgets, t < b.nextId) :
    ∀ t ∈ (tabclose b cfg count).1.widgets,
      t < (tabclose b cfg count).1.nextId := by
  obtain ⟨_, _, hn, hw, _, _, _⟩ := tabclose_gt b cfg count tab ht hgt
  rw [hn, hw]
  intro t htm
  exact hfresh t ((List.eraseIdx_sublist _ _).subset htm)

lemma tabopen_fresh (b : Browser) (u : Url)
    (hfresh : ∀ t ∈ b.widgets, t < b.nextId) :
    ∀ t ∈ (tabopen b u false).1.1.widgets,
      t < (tabopen b u false).1.1.nextId := by
  rw [tabopen_fg_state b u hfresh]
  intro t htm
  simp only [List.mem_append, List.mem_singleton] at htm
  rcases htm with h | h
  · exact Nat.lt_succ_of_lt (hfresh t h)
  · exact h ▸ Nat.lt_succ_self _

lemma undo_close_pop (b : Browser) (u : Url) (s : List Url)
    (h : b.urlStack = s ++ [u]) :
    undo_close b = (tabopen { b with urlStack := s } u false).1 := by
  unfold undo_close
  rw [h, List.getLast?_concat, List.dropLast_concat]

/-- C5: the closed-URL stack is LIFO. Closing tab A and then tab B (each
time with more than one visible tab), the first `undo_close` reopens B's
location as a new foreground tab, the second reopens A's, and once the
stack is empty a further `undo_close` reports "Nothing to undo!" and
opens nothing, leaving the state unchanged. -/
theorem undo_close_lifo (b0 b1 b2 b3 b4 : Browser) (cfg : Config)
    (cA cB : Option Int) (tA tB : Tab)
    (hfresh : ∀ t ∈ b0.widgets, t < b0.nextId)
    (hstack : b0.urlStack = [])
    (hA : cntwidget b0 cA = some tA)
    (hmoreA : 1 < b0.tabCount)
    (hb1 : b1 = (tabclose b0 cfg cA).1)
    (hB : cntwidget b1 cB = some tB)
    (hmoreB : 1 < b1.tabCount)
    (hb2 : b2 = (tabclose b1 cfg cB).1)
    (hb3 : b3 = (undo_close b2).1)
    (hb4 : b4 = (undo_close b3).1) :
    b2.urlStack = [b0.urlOf tA, b0.urlOf tB] ∧
    b3.widgets = b2.widgets ++ [b2.nextId] ∧
    b3.urlOf b2.nextId = b0.urlOf tB ∧
    b3.currentIndex = (b2.widgets.length : Int) ∧
    b3.urlStack = [b0.urlOf tA] ∧
    b4.widgets = b3.widgets ++ [b3.nextId] ∧
    b4.urlOf b3.nextId = b0.urlOf tA ∧
    b4.currentIndex = (b3.widgets.length : Int) ∧
    b4.urlStack = [] ∧
    undo_close b4 = (b4, [Event.errorMsg "Nothing to undo!"]) := by
  obtain ⟨hA_stack, hA_urls, hA_next, hA_widg, _, _, _⟩ :=
    tabclose_gt b0 cfg cA tA hA hmoreA
  have hb1stack : b1.urlStack = [b0.urlOf tA] := by
    rw [hb1, hA_stack, hstack]
    rfl
  have hb1urls : b1.urls = b0.urls := by rw [hb1, hA_urls]
  have hb1fresh : ∀ t ∈ b1.widgets, t < b1.nextId := by
    rw [hb1]
    exact tabclose_fresh b0 cfg cA tA hA hmoreA hfresh
  obtain ⟨hB_stack, hB_urls, hB_next, hB_widg, _, _, _⟩ :=
    tabclose_gt b1 cfg cB tB hB hmoreB
  have hub : b1.urlOf tB = b0.urlOf tB := urlOf_congr hb1urls tB
  have hb2stack : b2.urlStack = [b0.urlOf tA, b0.urlOf tB] := by
    rw [hb2, hB_stack, hb1stack, hub]
    rfl
  have hb2fresh : ∀ t ∈ b2.widgets, t < b2.nextId := by
    rw [hb2]
    exact tabclose_fresh b1 cfg cB tB hB hmoreB hb1fresh
  have hpop2 : undo_close b2 =
      (tabopen { b2 with urlStack := [b0.urlOf tA] } (b0.urlOf tB) false).1 :=
    undo_close_pop b2 (b0.urlOf tB) [b0.urlOf tA] (by rw [hb2stack]; rfl)
  have hfresh2 : ∀ t ∈ ({ b2 with urlStack := [b0.urlOf tA] } : Browser).widgets,
      t < ({ b2 with urlStack := [b0.urlOf tA] } : Browser).nextId := hb2fresh
  have hopen2 :=
    tabopen_fg_state { b2 with urlStack := [b0.urlOf tA] } (b0.urlOf tB) hfresh2
  have h3 : b3 = { b2 with
      urlStack := [b0.urlOf tA]
      nextId := b2.nextId + 1
      connected := b2.connected ++ [b2.nextId]
      tabs := b2.tabs ++ [b2.nextId]
      widgets := b2.widgets ++ [b2.nextId]
      urls := (b2.nextId, b0.urlOf tB) :: b2.urls
      currentIndex := (b2.widgets.length : Int) } := by
    rw [hb3, hpop2, hopen2]
  have h3fresh : ∀ t ∈ b3.widgets, t < b3.nextId := by
    rw [hb3, hpop2]
    exact tabopen_fresh _ _ hfresh2
  have c34 : b3.urlStack = [b0.urlOf tA] := by rw [h3]
  have hpop3 : undo_close b3 =
      (tabopen { b3 with urlStack := [] } (b0.urlOf tA) false).1 :=
    undo_close_pop b3 (b0.urlOf tA) [] (by rw [c34]; rfl)
  have hfresh3 : ∀ t ∈ ({ b3 with urlStack := ([] : List Url) } : Browser).widgets,
      t < ({ b3 with urlStack := ([] : List Url) } : Browser).nextId := h3fresh
  have hopen3 :=
    tabopen_fg_state { b3 with urlStack := ([] : List Url) } (b0.urlOf tA) hfresh3
  have h4 : b4 = { b3 with
      urlStack := []
      nextId := b3.nextId + 1
      connected := b3.connected ++ [b3.nextId]
      tabs := b3.tabs ++ [b3.nextId]
      widgets := b3.widgets ++ [b3.nextId]
      urls := (b3.nextId, b0.urlOf tA) :: b3.urls
      currentIndex := (b3.widgets.length : Int) } := by
    rw [hb4, hpop3, hopen3]
  have c44 : b4.urlStack = [] := by rw [h4]
  refine ⟨hb2stack, by rw [h3], ?_, by rw [h3], c34,
    by rw [h4], ?_, by rw [h4], c44, ?_⟩
  · rw [h3]
    simp [Browser.urlOf, List.lookup]
  · rw [h4]
    simp [Browser.urlOf, List.lookup]
  · unfold undo_close
    rw [c44]
    rfl

/-- Witness for C5: closing tabs `0` then `1` of the three-tab browser and
undoing twice, then a third time on the empty stack. -/
theorem undo_close_lifo_witness :
    ((tabclose (tabclose sampleBrowser sampleConfig (some 1)).1 sampleConfig
        (some 1)).1).urlStack =
      [sampleBrowser.urlOf 0, sampleBrowser.urlOf 1] ∧
    ((undo_close ((tabclose (tabclose sampleBrowser sampleConfig (some 1)).1
        sampleConfig (some 1)).1)).1).widgets =
      ((tabclose (tabclose sampleBrowser sampleConfig (some 1)).1 sampleConfig
        (some 1)).1).widgets ++
      [((tabclose (tabclose sampleBrowser sampleConfig (some 1)).1 sampleConfig
        (some 1)).1).nextId] ∧
    ((undo_close ((tabclose (tabclose sampleBrowser sampleConfig (some 1)).1
        sampleConfig (some 1)).1)).1).urlOf
      ((tabclose (tabclose sampleBrowser sampleConfig (some 1)).1 sampleConfig
        (some 1)).1).nextId = sampleBrowser.urlOf 1 ∧
    ((undo_close ((tabclose (tabclose sampleBrowser sampleConfig (some 1)).1
        sampleConfig (some 1)).1)).1).currentIndex =
      (((tabclose (tabclose sampleBrowser sampleConfig (some 1)).1 sampleConfig
        (some 1)).1).widgets.length : Int) ∧
    ((undo_close ((tabclose (tabclose sampleBrowser sampleConfig (some 1)).1
        sampleConfig (some 1)).1)).1).urlStack = [sampleBrowser.urlOf 0] ∧
    ((undo_close ((undo_close ((tabclose (tabclose sampleBrowser sampleConfig
        (some 1)).1 sampleConfig (some 1)).1)).1)).1).widgets =
      ((undo_close ((tabclose (tabclose sampleBrowser sampleConfig (some 1)).1
        sampleConfig (some 1)).1)).1).widgets ++
      [((undo_close ((tabclose (tabclose sampleBrowser sampleConfig (some 1)).1
        sampleConfig (some 1)).1)).1).nextId] ∧
    ((undo_close ((undo_close ((tabclose (tabclose sampleBrowser sampleConfig
        (some 1)).1 sampleConfig (some 1)).1)).1)).1).urlOf
      ((undo_close ((tabclose (tabclose sampleBrowser sampleConfig (some 1)).1
        sampleConfig (some 1)).1)).1).nextId = sampleBrowser.urlOf 0 ∧
    ((undo_close ((undo_close ((tabclose (tabclose sampleBrowser sampleConfig
        (some 1)).1 sampleConfig (some 1)).1)).1)).1).currentIndex =
      (((undo_close ((tabclose (tabclose sampleBrowser sampleConfig (some 1)).1
        sampleConfig (some 1)).1)).1).widgets.length : Int) ∧
    ((undo_close ((undo_close ((tabclose (tabclose sampleBrowser sampleConfig
        (some 1)).1 sampleConfig (some 1)).1)).1)).1).urlStack = [] ∧
    undo_close ((undo_close ((undo_close ((tabclose (tabclose sampleBrowser
        sampleConfig (some 1)).1 sampleConfig (some 1)).1)).1)).1) =
      (((undo_close ((undo_close ((tabclose (tabclose sampleBrowser
        sampleConfig (some 1)).1 sampleConfig (some 1)).1)).1)).1),
       [Event.errorMsg "Nothing to undo!"]) :=
  undo_close_lifo sampleBrowser
    (tabclose sampleBrowser sampleConfig (some 1)).1
    (tabclose (tabclose sampleBrowser sampleConfig (some 1)).1 sampleConfig
      (some 1)).1
    (undo_close ((tabclose (tabclose sampleBrowser sampleConfig (some 1)).1
      sampleConfig (some 1)).1)).1
    (undo_close ((undo_close ((tabclose (tabclose sampleBrowser sampleConfig
      (some 1)).1 sampleConfig (some 1)).1)).1)).1
    sampleConfig (some 1) (some 1) 0 1
    (by decide) rfl (by decide) (by decide) rfl (by decide) (by decide)
    rfl rfl rfl

lemma countSC_append (l1 l2 : List Event) :
    countSC (l1 ++ l2) = countSC l1 + countSC l2 := by
  induction l1 with
  | nil => simp [countSC]
  | cons e r ih => simp [countSC, ih]; omega

lemma countSC_map_req (l : List Tab) :
    countSC (l.map Event.tabShutdownReq) = 0 := by
  induction l with
  | nil => rfl
  | cons t r ih => simp [countSC, ih]

lemma cb_mem_spec (b : Browser) (t : Tab) (h : t ∈ b.tabs) :
    cb_tab_shutdown b t =
      ({ b with tabs := b.tabs.erase t },
       if (b.tabs.erase t).isEmpty then [Event.shutdownComplete] else []) := by
  simp only [cb_tab_shutdown]
  rw [if_pos h]
  split <;> rfl

lemma deliverConfirm_mem (b : Browser) (t : Tab) (h : t ∈ b.tabs) :
    deliverConfirm b t =
      ({ b with pending := b.pending.erase t, tabs := b.tabs.erase t },
       if (b.tabs.erase t).isEmpty then [Event.shutdownComplete] else []) :=
  cb_mem_spec { b with pending := b.pending.erase t } t h

lemma runDeliveries_complete (order : List Tab) :
    ∀ b : Browser, b.tabs.Perm order → order.Nodup → order ≠ [] →
      countSC (runDeliveries b order).2 = 1 := by
  induction order with
  | nil =>
    intro b _ _ hne
    exact absurd rfl hne
  | cons t rest ih =>
    intro b hperm hnd _
    have htmem : t ∈ b.tabs := hperm.mem_iff.mpr (List.mem_cons_self t rest)
    have hperm' : (b.tabs.erase t).Perm rest := by
      have h := hperm.erase t
      rw [List.erase_cons_head] at h
      exact h
    simp only [runDeliveries, deliverConfirm_mem b t htmem]
    rw [countSC_append]
    by_cases hrest : rest = []
    · subst hrest
      have hnil : b.tabs.erase t = [] := List.Perm.eq_nil hperm'
      simp [runDeliveries, hnil, countSC]
    · have hne2 : ¬ ((b.tabs.erase t).isEmpty = true) := by
        rw [List.isEmpty_iff]
        intro h0
        exact hrest (List.Perm.eq_nil ((h0 ▸ hperm').symm))
      rw [if_neg hne2]
      have ihv := ih { b with pending := b.pending.erase t, tabs := b.tabs.erase t } hperm' (List.nodup_cons.mp hnd).2 hrest
      simpa [countSC] using ihv

lemma runDeliveries_partial (p : List Tab) :
    ∀ b : Browser, p.Nodup → (∀ t ∈ p, t ∈ b.tabs) →
      p.length < b.tabs.length →
      countSC (runDeliveries b p).2 = 0 := by
  induction p with
  | nil =>
    intro b _ _ _
    rfl
  | cons t rest ih =>
    intro b hnd hsub hlen
    have htmem : t ∈ b.tabs := hsub t (List.mem_cons_self t rest)
    have herase : (b.tabs.erase t).length = b.tabs.length - 1 :=
      List.length_erase_of_mem htmem
    rw [List.length_cons] at hlen
    have hne2 : ¬ ((b.tabs.erase t).isEmpty = true) := by
      rw [List.isEmpty_iff]
      intro h0
      have hz : (b.tabs.erase t).length = 0 := by rw [h0]; rfl
      omega
    simp only [runDeliveries, deliverConfirm_mem b t htmem]
    rw [countSC_append, if_neg hne2]
    have ihv := ih { b with pending := b.pending.erase t, tabs := b.tabs.erase t } (List.nodup_cons.mp hnd).2 ?hsub ?hlen
    case hsub =>
      intro x hx
      have hxt : x ≠ t := by
        intro e
        exact (List.nodup_cons.mp hnd).1 (e ▸ hx)
      exact (List.mem_erase_of_ne hxt).mpr (hsub x (List.mem_cons_of_mem t hx))
    case hlen =>
      show rest.length < (b.tabs.erase t).length
      omega
    simpa [countSC] using ihv

/-- C1: starting shutdown with at least one visible tab (and possibly
further tabs already removed from the visible sequence by earlier closes
whose asynchronous shutdown is still pending), the shutdown call itself
emits no completion, and for every arrival order of the outstanding
confirmations `shutdown_complete` is emitted exactly once, and only at the
final confirmation: after any proper prefix of the arrivals it has not
been emitted. -/
theorem shutdown_drain_once (b : Browser) (order : List Tab)
    (hK : b.widgets ≠ [])
    (hwf : (b.widgets ++ b.pending).Perm b.tabs)
    (hnd : b.tabs.Nodup)
    (horder : ((shutdown b).1.pending).Perm order) :
    countSC (shutdown b).2 = 0 ∧
    countSC (runDeliveries (shutdown b).1 order).2 = 1 ∧
    ∀ j, j < order.length →
      countSC (runDeliveries (shutdown b).1 (order.take j)).2 = 0 := by
  have hlw : b.widgets.length ≠ 0 := by
    simpa [List.length_eq_zero] using hK
  have hTC : ¬ (({ b with replayConnected := false } : Browser).tabCount = 0) :=
    hlw
  have hsh : shutdown b =
      ({ b with replayConnected := false, pending := b.pending ++ b.widgets },
       b.widgets.map Event.tabShutdownReq) := by
    simp only [shutdown]
    rw [if_neg hTC]
  rw [hsh] at horder ⊢
  have hpw : (b.pending ++ b.widgets).Perm order := horder
  have hperm_tabs :
      (b.tabs).Perm order :=
    hwf.symm.trans (List.perm_append_comm.trans hpw)
  have hndo : order.Nodup := hperm_tabs.nodup hnd
  have hlen_eq : order.length = b.tabs.length := hperm_tabs.length_eq.symm
  have hlen2 := hwf.length_eq
  rw [List.length_append] at hlen2
  have horder_ne : order ≠ [] := by
    intro h0
    rw [h0] at hlen_eq
    simp at hlen_eq
    omega
  refine ⟨countSC_map_req _, ?_, ?_⟩
  · exact runDeliveries_complete order _ hperm_tabs hndo horder_ne
  · intro j hj
    refine runDeliveries_partial (order.take j) _ ?_ ?_ ?_
    · exact List.Nodup.sublist (List.take_sublist _ _) hndo
    · intro t htm
      exact hperm_tabs.mem_iff.mpr ((List.take_sublist _ _).subset htm)
    · rw [List.length_take]
      show min j order.length < b.tabs.length
      omega

/-- A browser mid-session for the C1 witness: visible tabs `0, 1`, plus
tab `2` already closed individually with its shutdown still pending. -/
def drainBrowser : Browser :=
  { tabs := [0, 1, 2], widgets := [0, 1], currentIndex := 0,
    urlStack := ["c"], urls := [(0, "a"), (1, "b"), (2, "c")],
    pending := [2], connected := [0, 1, 2], nextId := 3,
    replayConnected := true }

/-- Witness for C1: draining `drainBrowser` in the order `2, 0, 1`. -/
theorem shutdown_drain_once_witness :
    countSC (shutdown drainBrowser).2 = 0 ∧
    countSC (runDeliveries (shutdown drainBrowser).1 [2, 0, 1]).2 = 1 ∧
    ∀ j, j < ([2, 0, 1] : List Tab).length →
      countSC (runDeliveries (shutdown drainBrowser).1
        (([2, 0, 1] : List Tab).take j)).2 = 0 :=
  shutdown_drain_once drainBrowser [2, 0, 1] (by decide) (by decide)
    (by decide) (by decide)

end TabbedBrowser
